import Mathlib

/-!
Shallow embedding of `main.go` of the peertracker service: a peer directory
enriched by three polling pipelines (peer-list ingestion, IP-to-geo
resolution, hub-info probing) writing into one keyed store.

Modelling conventions:
* `time.Time` values are modelled as `Int` milliseconds since the Unix epoch,
  so `time.UnixMilli ms` is the identity on the millisecond count.
* Go `float64` fields (latitude/longitude) are modelled as `Rat`; the source
  performs no arithmetic on them, only exact comparison with `0` and copying,
  which `Rat` models exactly.
* Go `uint64`/`int64` are modelled as `Nat`/`Int`, with the wrapping
  conversion `int64(uint64)` made explicit where the source performs it.
* HTTP interactions are modelled by an input datatype describing the outcome
  of the call (transport error, or a response with status code, headers and
  an optionally-decodable body); `time.Sleep` is modelled by recording the
  slept duration in the result.
* GORM's `db.Model(&row).Updates(structValue)` updates exactly the non-zero
  fields of the struct value (`nil` pointers and zero-valued plain fields are
  skipped; a non-nil pointer is applied even when it points at a zero value).
  This is `gormUpdates` below.  The GORM-managed audit columns
  `created_at`/`updated_at` are outside the model.
* A store table is a `List PeerAddress`; the unique index on
  (`network`, `address`) is the `keysUnique` invariant.
-/

/-- The `PeerAddress` row type (main.go lines 21–66), without the
GORM-managed audit columns. Pointer-typed Go fields are `Option`s. -/
structure PeerAddress where
  Network : String
  Address : String
  LastSeen : Int
  GossipAddress : String
  GossipFamily : Int
  GossipPort : Int
  GossipDNSName : String
  RPCAddress : String
  RPCFamily : Int
  RPCPort : Int
  RPCDNSName : String
  Count : Int
  HubVersion : String
  AppVersion : String
  PeerTimestamp : Int
  Country : Option String
  CountryCode : Option String
  Region : Option String
  RegionName : Option String
  City : Option String
  Zip : Option String
  Latitude : Option Rat
  Longitude : Option Rat
  Hosting : Option Bool
  Org : Option String
  GeoDataFetchedAt : Option Int
  Latency : Option Int
  Version : Option String
  IsSyncing : Option Bool
  Nickname : Option String
  RootHash : Option String
  NumMessages : Option Int
  NumFidEvents : Option Int
  NumFnameEvents : Option Int
  PeerId : Option String
  HubOperatorFid : Option Int
  InfoFetchedAt : Option Int
  deriving Repr, DecidableEq

/-- The Go zero value of `PeerAddress`: empty strings, zero numbers,
nil pointers. Update structs in the source are built from this value. -/
def zeroPeerAddress : PeerAddress where
  Network := ""
  Address := ""
  LastSeen := 0
  GossipAddress := ""
  GossipFamily := 0
  GossipPort := 0
  GossipDNSName := ""
  RPCAddress := ""
  RPCFamily := 0
  RPCPort := 0
  RPCDNSName := ""
  Count := 0
  HubVersion := ""
  AppVersion := ""
  PeerTimestamp := 0
  Country := none
  CountryCode := none
  Region := none
  RegionName := none
  City := none
  Zip := none
  Latitude := none
  Longitude := none
  Hosting := none
  Org := none
  GeoDataFetchedAt := none
  Latency := none
  Version := none
  IsSyncing := none
  Nickname := none
  RootHash := none
  NumMessages := none
  NumFidEvents := none
  NumFnameEvents := none
  PeerId := none
  InfoFetchedAt := none
  HubOperatorFid := none

/-- GORM non-zero update semantics for a `String` column: a zero-valued
(empty) field of the update struct is skipped. -/
def updStr (cur upd : String) : String := if upd = "" then cur else upd

/-- GORM non-zero update semantics for an integer column. -/
def updInt (cur upd : Int) : Int := if upd = 0 then cur else upd

/-- GORM non-zero update semantics for a pointer column: a `nil` pointer is
skipped, a non-nil pointer is applied even when it points at a zero value. -/
def updOpt {α : Type} (cur upd : Option α) : Option α :=
  match upd with
  | none => cur
  | some v => some v

/-- `db.Model(&row).Updates(upd)` where `upd` is a `PeerAddress` struct
value: every non-zero field of `upd` overwrites the corresponding field of
`row`; zero-valued fields are left alone (GORM struct-update semantics). -/
def gormUpdates (row upd : PeerAddress) : PeerAddress where
  Network := updStr row.Network upd.Network
  Address := updStr row.Address upd.Address
  LastSeen := updInt row.LastSeen upd.LastSeen
  GossipAddress := updStr row.GossipAddress upd.GossipAddress
  GossipFamily := updInt row.GossipFamily upd.GossipFamily
  GossipPort := updInt row.GossipPort upd.GossipPort
  GossipDNSName := updStr row.GossipDNSName upd.GossipDNSName
  RPCAddress := updStr row.RPCAddress upd.RPCAddress
  RPCFamily := updInt row.RPCFamily upd.RPCFamily
  RPCPort := updInt row.RPCPort upd.RPCPort
  RPCDNSName := updStr row.RPCDNSName upd.RPCDNSName
  Count := updInt row.Count upd.Count
  HubVersion := updStr row.HubVersion upd.HubVersion
  AppVersion := updStr row.AppVersion upd.AppVersion
  PeerTimestamp := updInt row.PeerTimestamp upd.PeerTimestamp
  Country := updOpt row.Country upd.Country
  CountryCode := updOpt row.CountryCode upd.CountryCode
  Region := updOpt row.Region upd.Region
  RegionName := updOpt row.RegionName upd.RegionName
  City := updOpt row.City upd.City
  Zip := updOpt row.Zip upd.Zip
  Latitude := updOpt row.Latitude upd.Latitude
  Longitude := updOpt row.Longitude upd.Longitude
  Hosting := updOpt row.Hosting upd.Hosting
  Org := updOpt row.Org upd.Org
  GeoDataFetchedAt := updOpt row.GeoDataFetchedAt upd.GeoDataFetchedAt
  Latency := updOpt row.Latency upd.Latency
  Version := updOpt row.Version upd.Version
  IsSyncing := updOpt row.IsSyncing upd.IsSyncing
  Nickname := updOpt row.Nickname upd.Nickname
  RootHash := updOpt row.RootHash upd.RootHash
  NumMessages := updOpt row.NumMessages upd.NumMessages
  NumFidEvents := updOpt row.NumFidEvents upd.NumFidEvents
  NumFnameEvents := updOpt row.NumFnameEvents upd.NumFnameEvents
  PeerId := updOpt row.PeerId upd.PeerId
  HubOperatorFid := updOpt row.HubOperatorFid upd.HubOperatorFid
  InfoFetchedAt := updOpt row.InfoFetchedAt upd.InfoFetchedAt

@[simp] theorem updStr_zero (cur : String) : updStr cur "" = cur := by
  simp [updStr]

@[simp] theorem updInt_zero (cur : Int) : updInt cur 0 = cur := by
  simp [updInt]

@[simp] theorem updOpt_none {α : Type} (cur : Option α) : updOpt cur none = cur := rfl

@[simp] theorem updOpt_some {α : Type} (cur : Option α) (v : α) :
    updOpt cur (some v) = some v := rfl

/-! ## Geo resolution (main.go lines 244–335) -/

/-- Body of the ip-api.com JSON response (main.go lines 134–151);
`AsName` renders the Go field `As`. -/
structure IPAPIResponse where
  Message : String
  Query : String
  Status : String
  Country : String
  CountryCode : String
  Region : String
  RegionName : String
  City : String
  Zip : String
  Latitude : Rat
  Longitude : Rat
  Timezone : String
  ISP : String
  Org : String
  AsName : String
  Hosting : Bool
  deriving Repr, DecidableEq

/-- The `GeoData` struct (main.go lines 92–103). -/
structure GeoData where
  Country : String
  CountryCode : String
  Region : String
  RegionName : String
  City : String
  Zip : String
  Latitude : Rat
  Longitude : Rat
  Hosting : Bool
  Org : String
  deriving Repr, DecidableEq

/-- An HTTP response as seen by `getGeoDataFromAPI`: status code, the two
rate-limiting headers `X-Rl` and `X-Ttl`, and the body (`none` when the body
does not decode as `IPAPIResponse`). -/
structure GeoHttpResponse where
  statusCode : Nat
  xRl : String
  xTtl : String
  body : Option IPAPIResponse
  deriving Repr, DecidableEq

/-- Outcome of the `http.Get` call inside `getGeoDataFromAPI`. -/
inductive GeoApiInput where
  | transportError
  | response (r : GeoHttpResponse)
  deriving Repr, DecidableEq

/-- The distinct error returns of `getGeoDataFromAPI` (Go `error` values). -/
inductive GeoErr where
  | transport
  | ttlParse
  | rateLimit (ttlSeconds : Int)
  | decode
  | noData
  deriving Repr, DecidableEq

/-- Result of `getGeoDataFromAPI`: the `(*GeoData, error)` return value plus
the number of seconds slept via `time.Sleep` during the call (`time.Sleep`
clamps negative durations to zero, hence a `Nat`). -/
structure GeoApiResult where
  sleptSeconds : Nat
  result : Except GeoErr (Option GeoData)
  deriving Repr

/-- Decimal digit accumulation for `atoi`. -/
def parseDigits (acc : Nat) : List Char → Option Nat
  | [] => some acc
  | c :: cs =>
    if c.isDigit then parseDigits (acc * 10 + (c.toNat - 48)) cs else none

/-- Models `strconv.Atoi`: an optional sign followed by at least one decimal
digit; anything else is an error.  (The `int64` range check is not
modelled; the headers involved are small.) -/
def atoi (s : String) : Option Int :=
  match s.toList with
  | [] => none
  | '-' :: cs =>
    match cs with
    | [] => none
    | _ => (parseDigits 0 cs).map fun n => -(n : Int)
  | '+' :: cs =>
    match cs with
    | [] => none
    | _ => (parseDigits 0 cs).map fun n => (n : Int)
  | cs => (parseDigits 0 cs).map fun n => (n : Int)

/-- The `GeoData` built from a decoded response (main.go lines 323–334). -/
def geoDataOfResponse (api : IPAPIResponse) : GeoData where
  Country := api.Country
  CountryCode := api.CountryCode
  Region := api.Region
  RegionName := api.RegionName
  City := api.City
  Zip := api.Zip
  Latitude := api.Latitude
  Longitude := api.Longitude
  Hosting := api.Hosting
  Org := api.Org

/-- `getGeoDataFromAPI` (main.go lines 286–335): transport errors abort; a
429 status or an `X-Rl` header equal to `"0"` sleeps for the parsed `X-Ttl`
seconds and returns an error; then the body is decoded; message
`"reserved range"` returns `(nil, nil)`; coordinates `(0, 0)` return an
error; otherwise the geo data is returned. -/
def getGeoDataFromAPI (input : GeoApiInput) : GeoApiResult :=
  match input with
  | .transportError => ⟨0, .error .transport⟩
  | .response r =>
    if r.statusCode = 429 ∨ r.xRl = "0" then
      match atoi r.xTtl with
      | none => ⟨0, .error .ttlParse⟩
      | some ttlSeconds => ⟨ttlSeconds.toNat, .error (.rateLimit ttlSeconds)⟩
    else
      match r.body with
      | none => ⟨0, .error .decode⟩
      | some api =>
        if api.Message = "reserved range" then ⟨0, .ok none⟩
        else if api.Latitude = 0 ∧ api.Longitude = 0 then ⟨0, .error .noData⟩
        else ⟨0, .ok (some (geoDataOfResponse api))⟩

/-- One per-peer iteration of the inner loop of `resolveIPToGeo`
(main.go lines 252–280): on a lookup error the peer is skipped (`none`, no
store write); otherwise an update struct holding `GeoDataFetchedAt := now`
— plus the ten geo fields when data was returned — is applied to the row.
`now` is the timestamp captured before the loop (line 246). -/
def resolveIPToGeoStep (now : Int) (peer : PeerAddress) (input : GeoApiInput) :
    Option PeerAddress :=
  match (getGeoDataFromAPI input).result with
  | .error _ => none
  | .ok geoData =>
    let upd0 := { zeroPeerAddress with GeoDataFetchedAt := some now }
    let upd :=
      match geoData with
      | none => upd0
      | some g =>
        { upd0 with
          Country := some g.Country
          CountryCode := some g.CountryCode
          Region := some g.Region
          RegionName := some g.RegionName
          City := some g.City
          Zip := some g.Zip
          Latitude := some g.Latitude
          Longitude := some g.Longitude
          Hosting := some g.Hosting
          Org := some g.Org }
    some (gormUpdates peer upd)

/-- One day in milliseconds: the geo staleness threshold
(`interval '1 day'`, main.go line 250). -/
def dayMilliseconds : Int := 86400000

/-- The geo staleness predicate of the scan query (main.go line 250):
`geo_data_fetched_at IS NULL OR geo_data_fetched_at < now() - interval '1 day'`,
evaluated at scan wall-clock time `scanTime`. -/
def geoStale (scanTime : Int) (r : PeerAddress) : Bool :=
  match r.GeoDataFetchedAt with
  | none => true
  | some f => decide (f < scanTime - dayMilliseconds)

/-- The rows written by one batch iteration of `resolveIPToGeo`: each peer of
the batch paired with the outcome of its geo lookup; errored peers are
skipped without a write. -/
def resolveGeoIterationWrites (now : Int)
    (batch : List (PeerAddress × GeoApiInput)) : List PeerAddress :=
  batch.filterMap fun item => resolveIPToGeoStep now item.1 item.2

/-- The rows written by a finite prefix of the unbounded `resolveIPToGeo`
loop: `now` is captured once (main.go line 246) before the loop and shared by
every iteration. -/
def resolveGeoRunWrites (now : Int)
    (batches : List (List (PeerAddress × GeoApiInput))) : List PeerAddress :=
  (batches.map (resolveGeoIterationWrites now)).flatten

/-! ## Hub info probing (main.go lines 341–429) -/

/-- The nested `dbStats` object of a hub's info response
(main.go lines 128–132). -/
structure DbStats where
  NumMessages : Int
  NumFidEvents : Int
  NumFnameEvents : Int
  deriving Repr, DecidableEq

/-- The decoded `/v1/info` response body (main.go lines 118–126). -/
structure HubInfoResponse where
  Version : String
  IsSyncing : Bool
  Nickname : String
  RootHash : String
  DbStats : DbStats
  PeerId : String
  HubOperatorFid : Int
  deriving Repr, DecidableEq

/-- The `HubInfo` struct assembled by `fetchHubInfo`
(main.go lines 105–116). -/
structure HubInfo where
  Version : String
  IsSyncing : Bool
  Nickname : String
  RootHash : String
  PeerId : String
  HubOperatorFid : Int
  NumMessages : Int
  NumFidEvents : Int
  NumFnameEvents : Int
  Latency : Int
  deriving Repr, DecidableEq

/-- An HTTP response as seen by `fetchHubInfo`: status code and body
(`none` when the body does not decode as `HubInfoResponse`). -/
structure HubHttpResponse where
  statusCode : Nat
  body : Option HubInfoResponse
  deriving Repr, DecidableEq

/-- Outcome of the info probe's `client.Get` call, together with the
measured wall-clock milliseconds between just before the call and just after
the response (or error) was received — the `latency` of main.go line 396. -/
inductive HubApiInput where
  | transportError (elapsedMs : Int)
  | response (elapsedMs : Int) (r : HubHttpResponse)
  deriving Repr, DecidableEq

/-- The distinct error returns of `fetchHubInfo`. -/
inductive HubErr where
  | transport
  | status
  | decode
  deriving Repr, DecidableEq

/-- `fetchHubInfo` (main.go lines 384–429): errors on transport failure,
non-200 status or decode failure; otherwise builds a `HubInfo` whose
`HubOperatorFid` field (a plain `int`, Go zero value `0`) is assigned from
the response only when the response value is non-zero. -/
def fetchHubInfo (input : HubApiInput) : Except HubErr HubInfo :=
  match input with
  | .transportError _ => .error .transport
  | .response elapsedMs r =>
    if r.statusCode ≠ 200 then .error .status
    else
      match r.body with
      | none => .error .decode
      | some resp =>
        let hubInfo : HubInfo :=
          { Version := resp.Version
            IsSyncing := resp.IsSyncing
            Nickname := resp.Nickname
            RootHash := resp.RootHash
            NumMessages := resp.DbStats.NumMessages
            NumFidEvents := resp.DbStats.NumFidEvents
            NumFnameEvents := resp.DbStats.NumFnameEvents
            PeerId := resp.PeerId
            Latency := elapsedMs
            HubOperatorFid := 0 }
        if resp.HubOperatorFid ≠ 0 then
          .ok { hubInfo with HubOperatorFid := resp.HubOperatorFid }
        else .ok hubInfo

/-- One per-peer iteration of the inner loop of `getHubInfo`
(main.go lines 351–378): the update struct starts as
`PeerAddress{InfoFetchedAt: &now}`; on probe success every operational field
pointer is set (including `HubOperatorFid`, unconditionally, to the address
of the `HubInfo` field); the update struct is applied to the row in both
cases. `now` is the timestamp captured before the loop (line 345). -/
def getHubInfoStep (now : Int) (peer : PeerAddress) (input : HubApiInput) :
    PeerAddress :=
  let upd0 := { zeroPeerAddress with InfoFetchedAt := some now }
  match fetchHubInfo input with
  | .error _ => gormUpdates peer upd0
  | .ok info =>
    gormUpdates peer
      { upd0 with
        Version := some info.Version
        IsSyncing := some info.IsSyncing
        Nickname := some info.Nickname
        RootHash := some info.RootHash
        NumMessages := some info.NumMessages
        NumFidEvents := some info.NumFidEvents
        NumFnameEvents := some info.NumFnameEvents
        PeerId := some info.PeerId
        HubOperatorFid := some info.HubOperatorFid
        Latency := some info.Latency }

/-- The rows written by one batch iteration of `getHubInfo`: every peer of
the batch is written (the attempt stamp is applied on success and failure
alike). -/
def getHubInfoIterationWrites (now : Int)
    (batch : List (PeerAddress × HubApiInput)) : List PeerAddress :=
  batch.map fun item => getHubInfoStep now item.1 item.2

/-- The rows written by a finite prefix of the unbounded `getHubInfo` loop:
`now` is captured once (main.go line 345) before the loop and shared by
every iteration. -/
def getHubInfoRunWrites (now : Int)
    (batches : List (List (PeerAddress × HubApiInput))) : List PeerAddress :=
  (batches.map (getHubInfoIterationWrites now)).flatten

/-! ## Peer-list ingestion (main.go lines 183–238) -/

/-- A gossip or RPC endpoint of a contact (main.go lines 73–84). -/
structure ContactEndpoint where
  Address : String
  Family : Int
  Port : Int
  DNSName : String
  deriving Repr, DecidableEq

/-- One contact of the peer-list response (main.go lines 72–90);
`Count` is a Go `uint64`, `Timestamp` an `int64` of milliseconds. -/
structure PeerContact where
  GossipAddress : ContactEndpoint
  RPCAddress : ContactEndpoint
  Count : Nat
  HubVersion : String
  Network : String
  AppVersion : String
  Timestamp : Int
  deriving Repr, DecidableEq

/-- The peer-list response body (main.go lines 68–70). -/
structure PeerListResponse where
  Contacts : List PeerContact
  deriving Repr, DecidableEq

/-- Go's conversion `int64(x)` of a `uint64` value: values below `2^63` are
unchanged, larger ones wrap into the negative range. -/
def int64OfUint64 (n : Nat) : Int :=
  if n % 2 ^ 64 < 2 ^ 63 then ((n % 2 ^ 64 : Nat) : Int)
  else ((n % 2 ^ 64 : Nat) : Int) - 2 ^ 64

/-- `time.UnixMilli`: with `time.Time` modelled as milliseconds since the
epoch this is the identity on the millisecond count. -/
def unixMilli (ms : Int) : Int := ms

/-- The `PeerAddress` record built from a contact (main.go lines 209–225);
`lastSeenNow` is the `time.Now().UTC()` of the iteration. -/
def contactToPeerAddress (lastSeenNow : Int) (contact : PeerContact) :
    PeerAddress :=
  { zeroPeerAddress with
    Address := contact.GossipAddress.Address
    LastSeen := lastSeenNow
    GossipAddress := contact.GossipAddress.Address
    GossipFamily := contact.GossipAddress.Family
    GossipPort := contact.GossipAddress.Port
    GossipDNSName := contact.GossipAddress.DNSName
    RPCAddress := contact.RPCAddress.Address
    RPCFamily := contact.RPCAddress.Family
    RPCPort := contact.RPCAddress.Port
    RPCDNSName := contact.RPCAddress.DNSName
    PeerTimestamp := unixMilli contact.Timestamp
    HubVersion := contact.HubVersion
    AppVersion := contact.AppVersion
    Network := contact.Network
    Count := int64OfUint64 contact.Count }

/-- Key equality against the composite primary key (`network`, `address`). -/
def sameKey (r : PeerAddress) (net addr : String) : Bool :=
  decide (r.Network = net ∧ r.Address = addr)

/-- The `DO UPDATE` assignment list of the upsert (main.go lines 227–232):
exactly the thirteen mutable ingestion columns are overwritten; the key and
all enrichment columns are untouched. -/
def applyIngestionAssignments (row rec : PeerAddress) : PeerAddress :=
  { row with
    LastSeen := rec.LastSeen
    GossipAddress := rec.GossipAddress
    GossipFamily := rec.GossipFamily
    GossipPort := rec.GossipPort
    GossipDNSName := rec.GossipDNSName
    RPCAddress := rec.RPCAddress
    RPCFamily := rec.RPCFamily
    RPCPort := rec.RPCPort
    RPCDNSName := rec.RPCDNSName
    PeerTimestamp := rec.PeerTimestamp
    HubVersion := rec.HubVersion
    AppVersion := rec.AppVersion
    Count := rec.Count }

/-- `INSERT ... ON CONFLICT (address, network) DO UPDATE`
(main.go lines 227–232) on a table modelled as a row list: the conflicting
row, when present, has its mutable ingestion columns overwritten; otherwise
the record is inserted.  On a table satisfying the unique-key invariant at
most one row can conflict, which the first-match recursion reflects. -/
def upsertPeer (store : List PeerAddress) (rec : PeerAddress) :
    List PeerAddress :=
  match store with
  | [] => [rec]
  | row :: rest =>
    if sameKey row rec.Network rec.Address then
      applyIngestionAssignments row rec :: rest
    else row :: upsertPeer rest rec

/-- `SELECT` of the row with the given key. -/
def findPeer (store : List PeerAddress) (net addr : String) :
    Option PeerAddress :=
  store.find? fun r => sameKey r net addr

/-- Number of rows carrying the given key. -/
def countKey (store : List PeerAddress) (net addr : String) : Nat :=
  (store.filter fun r => sameKey r net addr).length

/-- The unique-index invariant on (`network`, `address`). -/
def keysUnique (store : List PeerAddress) : Prop :=
  ∀ net addr, countKey store net addr ≤ 1

/-- Outcome of the `http.Get` call of `getPeerList`. -/
inductive PeerListFetch where
  | transportError
  | response (statusCode : Nat) (body : Option PeerListResponse)
  deriving Repr, DecidableEq

/-- The upsert loop of `getPeerList` (main.go lines 208–237): each contact
is paired with whether its database upsert call fails; a failed upsert is
logged and leaves the store unchanged, and the loop continues with the
remaining contacts. -/
def ingestContacts (now : Int) (store : List PeerAddress) :
    List (PeerContact × Bool) → List PeerAddress
  | [] => store
  | (contact, dbFailed) :: rest =>
    ingestContacts now
      (if dbFailed then store
       else upsertPeer store (contactToPeerAddress now contact))
      rest

/-- Pairs the decoded contacts with the per-upsert database outcomes
(`false` = the upsert succeeds, the default). -/
def pairContactOutcomes : List PeerContact → List Bool →
    List (PeerContact × Bool)
  | [], _ => []
  | c :: cs, [] => (c, false) :: pairContactOutcomes cs []
  | c :: cs, b :: bs => (c, b) :: pairContactOutcomes cs bs

/-- One cycle of `getPeerList` (main.go lines 183–238): transport errors,
non-200 statuses and decode failures skip the cycle without touching the
store; otherwise every contact is upserted in order. -/
def getPeerListStep (now : Int) (store : List PeerAddress)
    (fetch : PeerListFetch) (dbFailures : List Bool) : List PeerAddress :=
  match fetch with
  | .transportError => store
  | .response statusCode body =>
    if statusCode ≠ 200 then store
    else
      match body with
      | none => store
      | some resp =>
        ingestContacts now store (pairContactOutcomes resp.Contacts dbFailures)

/-! ## Helper lemmas -/

/-- Equality on exactly the thirteen mutable ingestion columns of the
upsert's `DO UPDATE` list. -/
def mutableFieldsEq (row rec : PeerAddress) : Prop :=
  row.LastSeen = rec.LastSeen ∧ row.GossipAddress = rec.GossipAddress ∧
  row.GossipFamily = rec.GossipFamily ∧ row.GossipPort = rec.GossipPort ∧
  row.GossipDNSName = rec.GossipDNSName ∧ row.RPCAddress = rec.RPCAddress ∧
  row.RPCFamily = rec.RPCFamily ∧ row.RPCPort = rec.RPCPort ∧
  row.RPCDNSName = rec.RPCDNSName ∧ row.PeerTimestamp = rec.PeerTimestamp ∧
  row.HubVersion = rec.HubVersion ∧ row.AppVersion = rec.AppVersion ∧
  row.Count = rec.Count

theorem mutableFieldsEq_refl (rec : PeerAddress) : mutableFieldsEq rec rec :=
  ⟨rfl, rfl, rfl, rfl, rfl, rfl, rfl, rfl, rfl, rfl, rfl, rfl, rfl⟩

theorem mutableFieldsEq_applyIngestionAssignments (row rec : PeerAddress) :
    mutableFieldsEq (applyIngestionAssignments row rec) rec :=
  ⟨rfl, rfl, rfl, rfl, rfl, rfl, rfl, rfl, rfl, rfl, rfl, rfl, rfl⟩

theorem sameKey_applyIngestionAssignments (row rec : PeerAddress)
    (net addr : String) :
    sameKey (applyIngestionAssignments row rec) net addr =
      sameKey row net addr := rfl

theorem countKey_cons (row : PeerAddress) (rest : List PeerAddress)
    (net addr : String) :
    countKey (row :: rest) net addr =
      (if sameKey row net addr then 1 else 0) + countKey rest net addr := by
  by_cases h : sameKey row net addr <;>
    simp [countKey, List.filter_cons, h, Nat.add_comm]

theorem countKey_eq_zero_of_any_false (rest : List PeerAddress)
    (net addr : String)
    (h : (rest.any fun r => sameKey r net addr) = false) :
    countKey rest net addr = 0 := by
  induction rest with
  | nil => rfl
  | cons row rest ih =>
    simp only [List.any_cons, Bool.or_eq_false_iff] at h
    simp [countKey_cons, h.1, ih h.2]

theorem countKey_upsertPeer (store : List PeerAddress) (rec : PeerAddress)
    (net addr : String) :
    countKey (upsertPeer store rec) net addr =
      countKey store net addr +
        (if sameKey rec net addr = true ∧
            (store.any fun r => sameKey r rec.Network rec.Address) = false
         then 1 else 0) := by
  induction store with
  | nil =>
    by_cases h : sameKey rec net addr = true <;>
      simp [upsertPeer, countKey, countKey_cons, List.filter_cons, h]
  | cons row rest ih =>
    cases h : sameKey row rec.Network rec.Address with
    | true =>
      simp [upsertPeer, h, countKey_cons, sameKey_applyIngestionAssignments,
        List.any_cons]
    | false =>
      simp only [upsertPeer, h, Bool.false_eq_true, if_false, countKey_cons,
        List.any_cons, Bool.false_or, ih]
      omega

theorem keysUnique_upsertPeer {store : List PeerAddress}
    (h : keysUnique store) (rec : PeerAddress) :
    keysUnique (upsertPeer store rec) := by
  intro net addr
  rw [countKey_upsertPeer]
  by_cases hc : sameKey rec net addr = true ∧
      (store.any fun r => sameKey r rec.Network rec.Address) = false
  · obtain ⟨h1, h2⟩ := hc
    have hkey : rec.Network = net ∧ rec.Address = addr := by
      simpa [sameKey] using h1
    obtain ⟨hnet, haddr⟩ := hkey
    subst hnet; subst haddr
    have hzero := countKey_eq_zero_of_any_false store rec.Network rec.Address h2
    simp [hzero, h1, h2]
  · have hle := h net addr
    simp only [hc, if_false]
    omega

theorem findPeer_upsertPeer (store : List PeerAddress) (rec : PeerAddress) :
    ∃ row, findPeer (upsertPeer store rec) rec.Network rec.Address = some row ∧
      mutableFieldsEq row rec := by
  have hself : sameKey rec rec.Network rec.Address = true := by simp [sameKey]
  induction store with
  | nil =>
    exact ⟨rec, by simp [upsertPeer, findPeer, List.find?_cons_of_pos, hself],
      mutableFieldsEq_refl rec⟩
  | cons row rest ih =>
    cases h : sameKey row rec.Network rec.Address with
    | true =>
      refine ⟨applyIngestionAssignments row rec, ?_,
        mutableFieldsEq_applyIngestionAssignments row rec⟩
      have hkeep : sameKey (applyIngestionAssignments row rec)
          rec.Network rec.Address = true := by
        rw [sameKey_applyIngestionAssignments]; exact h
      simp [upsertPeer, h, findPeer, List.find?_cons_of_pos, hkeep]
    | false =>
      obtain ⟨r0, hfind, hmut⟩ := ih
      refine ⟨r0, ?_, hmut⟩
      simp only [upsertPeer, h, Bool.false_eq_true, if_false]
      simpa [findPeer, List.find?_cons_of_neg, h] using hfind

theorem countKey_pos_of_findPeer {store : List PeerAddress}
    {net addr : String} {row : PeerAddress}
    (h : findPeer store net addr = some row) : 1 ≤ countKey store net addr := by
  induction store with
  | nil => exact absurd h (by simp [findPeer])
  | cons r rest ih =>
    cases hk : sameKey r net addr with
    | true => simp [countKey_cons, hk]
    | false =>
      rw [countKey_cons, hk]
      simp only [findPeer] at h ih
      rw [List.find?_cons_of_neg _ (by simp [hk])] at h
      simpa using ih h

theorem geoStale_mono {t0 t1 : Int} {r : PeerAddress}
    (h : geoStale t0 r = true) (hle : t0 ≤ t1) : geoStale t1 r = true := by
  cases hf : r.GeoDataFetchedAt with
  | none => simp [geoStale, hf]
  | some f =>
    simp only [geoStale, hf, decide_eq_true_eq] at h ⊢
    omega

theorem resolveIPToGeoStep_geoFetchedAt {now : Int} {peer : PeerAddress}
    {input : GeoApiInput} {row : PeerAddress}
    (h : resolveIPToGeoStep now peer input = some row) :
    row.GeoDataFetchedAt = some now := by
  unfold resolveIPToGeoStep at h
  rcases hres : (getGeoDataFromAPI input).result with e | gd
  · rw [hres] at h; exact absurd h (by simp)
  · rw [hres] at h
    cases gd with
    | none =>
      simp only [Option.some.injEq] at h
      subst h; rfl
    | some g =>
      simp only [Option.some.injEq] at h
      subst h; rfl

theorem getHubInfoStep_infoFetchedAt (now : Int) (peer : PeerAddress)
    (input : HubApiInput) :
    (getHubInfoStep now peer input).InfoFetchedAt = some now := by
  rcases hfi : fetchHubInfo input with e | info <;>
    simp only [getHubInfoStep, hfi] <;> rfl

/-! ## Claims -/

/-- A stored peer row whose operator fid was previously resolved to `7`. -/
def fidSevenPeer : PeerAddress :=
  { zeroPeerAddress with
    Network := "FARCASTER_NETWORK_MAINNET"
    Address := "203.0.113.7"
    HubOperatorFid := some 7 }

/-- A decoded `/v1/info` body reporting `hubOperatorFid = 0`. -/
def fidZeroProbeBody : HubInfoResponse :=
  { Version := "1.12.0"
    IsSyncing := false
    Nickname := "hub"
    RootHash := "ab12"
    DbStats := ⟨10, 2, 3⟩
    PeerId := "peer-x"
    HubOperatorFid := 0 }

/-- C1: a successful probe whose response reports `hubOperatorFid = 0` does
NOT preserve the stored value.  `fetchHubInfo` leaves the plain-`int`
`HubInfo.HubOperatorFid` at its zero value, `getHubInfo` then takes its
address unconditionally, and the resulting non-nil pointer passes GORM's
non-zero-field filter: the stored `7` is overwritten with `0`.  The vestigial
`if hubInfoResponse.HubOperatorFid != 0` guard (main.go line 424) shows the
preserve-on-zero intent that the spec states, so this is a code bug. -/
theorem hubOperatorFid_zero_response_overwrites_stored_value :
    fidSevenPeer.HubOperatorFid = some 7 ∧
    fidZeroProbeBody.HubOperatorFid = 0 ∧
    (getHubInfoStep 1000 fidSevenPeer
        (.response 42 ⟨200, some fidZeroProbeBody⟩)).HubOperatorFid = some 0 := by
  decide

/-- C3: every row written by a finite prefix of the Geo Resolver loop
carries `GeoDataFetchedAt` equal to the single timestamp captured when the
pipeline goroutine started (main.go line 246), and every row written by the
Hub Info Prober loop carries `InfoFetchedAt` equal to that pipeline's start
timestamp (main.go line 345) — never the time of the current attempt. -/
theorem pipeline_writes_carry_start_timestamp
    (nowGeo nowInfo : Int)
    (geoBatches : List (List (PeerAddress × GeoApiInput)))
    (infoBatches : List (List (PeerAddress × HubApiInput)))
    (rowG rowI : PeerAddress)
    (hG : rowG ∈ resolveGeoRunWrites nowGeo geoBatches)
    (hI : rowI ∈ getHubInfoRunWrites nowInfo infoBatches) :
    rowG.GeoDataFetchedAt = some nowGeo ∧ rowI.InfoFetchedAt = some nowInfo := by
  constructor
  · unfold resolveGeoRunWrites at hG
    rw [List.mem_flatten] at hG
    obtain ⟨writes, hwmem, hrow⟩ := hG
    rw [List.mem_map] at hwmem
    obtain ⟨batch, _, hbatch⟩ := hwmem
    subst hbatch
    unfold resolveGeoIterationWrites at hrow
    rw [List.mem_filterMap] at hrow
    obtain ⟨item, _, hstep⟩ := hrow
    exact resolveIPToGeoStep_geoFetchedAt hstep
  · unfold getHubInfoRunWrites at hI
    rw [List.mem_flatten] at hI
    obtain ⟨writes, hwmem, hrow⟩ := hI
    rw [List.mem_map] at hwmem
    obtain ⟨batch, _, hbatch⟩ := hwmem
    subst hbatch
    unfold getHubInfoIterationWrites at hrow
    rw [List.mem_map] at hrow
    obtain ⟨item, _, hstep⟩ := hrow
    rw [← hstep]
    exact getHubInfoStep_infoFetchedAt nowInfo item.1 item.2

/-- A decoded lookup body reporting a reserved/private source address. -/
def reservedRangeBody : IPAPIResponse :=
  { Message := "reserved range"
    Query := "10.0.0.1"
    Status := "fail"
    Country := ""
    CountryCode := ""
    Region := ""
    RegionName := ""
    City := ""
    Zip := ""
    Latitude := 0
    Longitude := 0
    Timezone := ""
    ISP := ""
    Org := ""
    AsName := ""
    Hosting := false }

theorem pipeline_writes_carry_start_timestamp_witness :
    ({ zeroPeerAddress with GeoDataFetchedAt := some 5 } : PeerAddress) ∈
      resolveGeoRunWrites 5
        [[(zeroPeerAddress, .response ⟨200, "44", "60", some reservedRangeBody⟩)]] ∧
    ({ zeroPeerAddress with InfoFetchedAt := some 9 } : PeerAddress) ∈
      getHubInfoRunWrites 9 [[(zeroPeerAddress, .transportError 3)]] ∧
    ({ zeroPeerAddress with GeoDataFetchedAt := some 5 } : PeerAddress).GeoDataFetchedAt = some 5 ∧
    ({ zeroPeerAddress with InfoFetchedAt := some 9 } : PeerAddress).InfoFetchedAt = some 9 := by
  have h1 : ({ zeroPeerAddress with GeoDataFetchedAt := some 5 } : PeerAddress) ∈
      resolveGeoRunWrites 5
        [[(zeroPeerAddress, .response ⟨200, "44", "60", some reservedRangeBody⟩)]] := by
    decide
  have h2 : ({ zeroPeerAddress with InfoFetchedAt := some 9 } : PeerAddress) ∈
      getHubInfoRunWrites 9 [[(zeroPeerAddress, .transportError 3)]] := by
    decide
  have h3 := pipeline_writes_carry_start_timestamp 5 9 _ _ _ _ h1 h2
  exact ⟨h1, h2, h3.1, h3.2⟩

/-- C5: on a failed info probe (transport error, non-200 status or decode
error) the prober's update sets `InfoFetchedAt` only and leaves every other
field of the row unchanged, and the batch iteration still attempts (and
writes) every peer of the batch. -/
theorem info_probe_failure_stamps_only
    (now : Int) (peer : PeerAddress) (input : HubApiInput) (e : HubErr)
    (batch : List (PeerAddress × HubApiInput))
    (h : fetchHubInfo input = .error e) :
    getHubInfoStep now peer input = { peer with InfoFetchedAt := some now } ∧
    (getHubInfoIterationWrites now batch).length = batch.length := by
  constructor
  · simp only [getHubInfoStep, h]
    rfl
  · simp [getHubInfoIterationWrites]

theorem info_probe_failure_stamps_only_witness :
    fetchHubInfo (.transportError 4) = .error .transport ∧
    (getHubInfoStep 9 fidSevenPeer (.transportError 4) =
        { fidSevenPeer with InfoFetchedAt := some 9 } ∧
      (getHubInfoIterationWrites 9 [(fidSevenPeer, .transportError 4)]).length =
        [(fidSevenPeer, HubApiInput.transportError 4)].length) :=
  ⟨rfl, info_probe_failure_stamps_only 9 fidSevenPeer (.transportError 4)
    .transport [(fidSevenPeer, .transportError 4)] rfl⟩

/-- C2 counterexample: the claim's exclusion window is measured from the
stamped value, which is the pipeline's start time, not from the update.
Pipeline start `0`; a reserved-range update performed at wall-clock time
`2·day`; the next scan one millisecond later is still well within one day of
that update, yet the peer already satisfies the staleness predicate. -/
theorem geo_reserved_range_restale_before_threshold :
    (resolveIPToGeoStep 0 zeroPeerAddress
        (.response ⟨200, "44", "60", some reservedRangeBody⟩)).map
        (geoStale (2 * dayMilliseconds + 1)) = some true ∧
    (2 * dayMilliseconds + 1 : Int) < 2 * dayMilliseconds + dayMilliseconds := by
  constructor
  · decide
  · decide

/-- C2 (amended): a reserved-range lookup stamps `GeoDataFetchedAt` with the
pipeline's start timestamp `now` and writes no geo field, and the peer
satisfies the staleness predicate at a later scan exactly when the scan time
exceeds `now` (the stamped pipeline-start value, not the update time) plus
the one-day threshold. -/
theorem geo_reserved_range_stamps_pipeline_start
    (now t : Int) (peer : PeerAddress) (r : GeoHttpResponse)
    (api : IPAPIResponse)
    (hrl : ¬(r.statusCode = 429 ∨ r.xRl = "0"))
    (hbody : r.body = some api)
    (hmsg : api.Message = "reserved range") :
    resolveIPToGeoStep now peer (.response r) =
      some { peer with GeoDataFetchedAt := some now } ∧
    (geoStale t { peer with GeoDataFetchedAt := some now } = true ↔
      now + dayMilliseconds < t) := by
  have hres : (getGeoDataFromAPI (.response r)).result = .ok none := by
    simp [getGeoDataFromAPI, hbody, hrl, hmsg]
  constructor
  · unfold resolveIPToGeoStep
    rw [hres]
    rfl
  · simp only [geoStale, decide_eq_true_eq]
    unfold dayMilliseconds
    omega

theorem geo_reserved_range_stamps_pipeline_start_witness :
    (¬((200 : Nat) = 429 ∨ ("44" : String) = "0")) ∧
    reservedRangeBody.Message = "reserved range" ∧
    (resolveIPToGeoStep 10 zeroPeerAddress
        (.response ⟨200, "44", "60", some reservedRangeBody⟩) =
      some { zeroPeerAddress with GeoDataFetchedAt := some 10 } ∧
    (geoStale 55 { zeroPeerAddress with GeoDataFetchedAt := some 10 } = true ↔
      (10 : Int) + dayMilliseconds < 55)) :=
  ⟨by decide, rfl,
    geo_reserved_range_stamps_pipeline_start 10 55 zeroPeerAddress
      ⟨200, "44", "60", some reservedRangeBody⟩ reservedRangeBody
      (by decide) rfl rfl⟩

/-- A decoded lookup body with degenerate `(0, 0)` coordinates. -/
def noDataBody : IPAPIResponse :=
  { Message := ""
    Query := "198.51.100.9"
    Status := "success"
    Country := ""
    CountryCode := ""
    Region := ""
    RegionName := ""
    City := ""
    Zip := ""
    Latitude := 0
    Longitude := 0
    Timezone := ""
    ISP := ""
    Org := ""
    AsName := ""
    Hosting := false }

/-- C4: a lookup returning degenerate `(0, 0)` coordinates is an error for
that peer, so the resolver performs no store write (the row — including its
unset `GeoDataFetchedAt` — is untouched), and a peer that was stale at scan
time `t0` is still stale at any later scan time `t1`. -/
theorem geo_degenerate_coords_skip_and_retry
    (now t0 t1 : Int) (peer : PeerAddress) (r : GeoHttpResponse)
    (api : IPAPIResponse)
    (hrl : ¬(r.statusCode = 429 ∨ r.xRl = "0"))
    (hbody : r.body = some api)
    (hmsg : api.Message ≠ "reserved range")
    (hzero : api.Latitude = 0 ∧ api.Longitude = 0)
    (hstale : geoStale t0 peer = true)
    (hle : t0 ≤ t1) :
    resolveIPToGeoStep now peer (.response r) = none ∧
    geoStale t1 peer = true := by
  have hres : (getGeoDataFromAPI (.response r)).result = .error .noData := by
    simp [getGeoDataFromAPI, hbody, hrl, hmsg, hzero]
  exact ⟨by unfold resolveIPToGeoStep; rw [hres], geoStale_mono hstale hle⟩

theorem geo_degenerate_coords_skip_and_retry_witness :
    (¬((200 : Nat) = 429 ∨ ("44" : String) = "0")) ∧
    noDataBody.Message ≠ "reserved range" ∧
    (noDataBody.Latitude = 0 ∧ noDataBody.Longitude = 0) ∧
    geoStale 0 zeroPeerAddress = true ∧
    (resolveIPToGeoStep 7 zeroPeerAddress
        (.response ⟨200, "44", "60", some noDataBody⟩) = none ∧
      geoStale 1 zeroPeerAddress = true) :=
  ⟨by decide, by decide, by decide, by decide,
    geo_degenerate_coords_skip_and_retry 7 0 1 zeroPeerAddress
      ⟨200, "44", "60", some noDataBody⟩ noDataBody
      (by decide) rfl (by decide) (by decide) (by decide) (by decide)⟩

/-- C6: a 429 status or an `X-Rl` header equal to `"0"` makes the lookup
sleep for (at least) the parsed `X-Ttl` duration before returning a
rate-limit error, and the resolver then skips the peer without any store
write. -/
theorem geo_rate_limit_sleeps_and_skips
    (now : Int) (peer : PeerAddress) (r : GeoHttpResponse) (n : Int)
    (hrl : r.statusCode = 429 ∨ r.xRl = "0")
    (httl : atoi r.xTtl = some n) :
    n ≤ ((getGeoDataFromAPI (.response r)).sleptSeconds : Int) ∧
    (getGeoDataFromAPI (.response r)).result = .error (.rateLimit n) ∧
    resolveIPToGeoStep now peer (.response r) = none := by
  have hga : getGeoDataFromAPI (.response r) = ⟨n.toNat, .error (.rateLimit n)⟩ := by
    simp only [getGeoDataFromAPI]
    rw [if_pos hrl, httl]
  refine ⟨?_, ?_, ?_⟩
  · rw [hga]
    exact Int.self_le_toNat n
  · rw [hga]
  · unfold resolveIPToGeoStep
    rw [hga]

theorem geo_rate_limit_sleeps_and_skips_witness :
    ((429 : Nat) = 429 ∨ ("1" : String) = "0") ∧
    atoi "5" = some 5 ∧
    ((5 : Int) ≤
        ((getGeoDataFromAPI (.response ⟨429, "1", "5", none⟩)).sleptSeconds : Int) ∧
      (getGeoDataFromAPI (.response ⟨429, "1", "5", none⟩)).result =
        .error (.rateLimit 5) ∧
      resolveIPToGeoStep 3 zeroPeerAddress (.response ⟨429, "1", "5", none⟩) =
        none) :=
  ⟨Or.inl rfl, by decide,
    geo_rate_limit_sleeps_and_skips 3 zeroPeerAddress ⟨429, "1", "5", none⟩ 5
      (Or.inl rfl) (by decide)⟩

/-- A decoded lookup body carrying real geolocation data. -/
def realDataBody : IPAPIResponse :=
  { Message := ""
    Query := "198.51.100.4"
    Status := "success"
    Country := "Germany"
    CountryCode := "DE"
    Region := "BE"
    RegionName := "Berlin"
    City := "Berlin"
    Zip := "10115"
    Latitude := 1
    Longitude := 2
    Timezone := "Europe/Berlin"
    ISP := "ispA"
    Org := "orgA"
    AsName := "AS1"
    Hosting := true }

/-- C9: a successful lookup with real data writes the full ten-field geo
group together with `GeoDataFetchedAt` in the one row update, and every
store write the geo step can reach carries `GeoDataFetchedAt = now`. -/
theorem geo_success_writes_full_group_with_stamp
    (now : Int) (peer : PeerAddress) (r : GeoHttpResponse)
    (api : IPAPIResponse) (input2 : GeoApiInput) (row2 : PeerAddress)
    (hrl : ¬(r.statusCode = 429 ∨ r.xRl = "0"))
    (hbody : r.body = some api)
    (hmsg : api.Message ≠ "reserved range")
    (hcoord : ¬(api.Latitude = 0 ∧ api.Longitude = 0))
    (h2 : resolveIPToGeoStep now peer input2 = some row2) :
    resolveIPToGeoStep now peer (.response r) =
      some { peer with
        Country := some api.Country
        CountryCode := some api.CountryCode
        Region := some api.Region
        RegionName := some api.RegionName
        City := some api.City
        Zip := some api.Zip
        Latitude := some api.Latitude
        Longitude := some api.Longitude
        Hosting := some api.Hosting
        Org := some api.Org
        GeoDataFetchedAt := some now } ∧
    row2.GeoDataFetchedAt = some now := by
  have hres : (getGeoDataFromAPI (.response r)).result =
      .ok (some (geoDataOfResponse api)) := by
    simp [getGeoDataFromAPI, hbody, hrl, hmsg, hcoord]
  constructor
  · unfold resolveIPToGeoStep
    rw [hres]
    rfl
  · exact resolveIPToGeoStep_geoFetchedAt h2

theorem geo_success_writes_full_group_with_stamp_witness :
    (¬((200 : Nat) = 429 ∨ ("44" : String) = "0")) ∧
    realDataBody.Message ≠ "reserved range" ∧
    (¬(realDataBody.Latitude = 0 ∧ realDataBody.Longitude = 0)) ∧
    (resolveIPToGeoStep 7 zeroPeerAddress
        (.response ⟨200, "44", "60", some realDataBody⟩) =
      some { zeroPeerAddress with
        Country := some realDataBody.Country
        CountryCode := some realDataBody.CountryCode
        Region := some realDataBody.Region
        RegionName := some realDataBody.RegionName
        City := some realDataBody.City
        Zip := some realDataBody.Zip
        Latitude := some realDataBody.Latitude
        Longitude := some realDataBody.Longitude
        Hosting := some realDataBody.Hosting
        Org := some realDataBody.Org
        GeoDataFetchedAt := some 7 } ∧
      ({ zeroPeerAddress with
        Country := some realDataBody.Country
        CountryCode := some realDataBody.CountryCode
        Region := some realDataBody.Region
        RegionName := some realDataBody.RegionName
        City := some realDataBody.City
        Zip := some realDataBody.Zip
        Latitude := some realDataBody.Latitude
        Longitude := some realDataBody.Longitude
        Hosting := some realDataBody.Hosting
        Org := some realDataBody.Org
        GeoDataFetchedAt := some 7 } : PeerAddress).GeoDataFetchedAt = some 7) :=
  ⟨by decide, by decide, by decide,
    geo_success_writes_full_group_with_stamp 7 zeroPeerAddress
      ⟨200, "44", "60", some realDataBody⟩ realDataBody
      (.response ⟨200, "44", "60", some realDataBody⟩) _
      (by decide) rfl (by decide) (by decide) (by decide)⟩

/-- C7: upserting two records that share the (network, address) key leaves
the unique-key invariant intact, exactly one row carries that key, and the
row found at that key carries the second record's mutable ingestion
fields. -/
theorem upsert_same_key_replaces_without_duplicate
    (store : List PeerAddress) (r1 r2 : PeerAddress)
    (h : keysUnique store)
    (hnet : r1.Network = r2.Network) (haddr : r1.Address = r2.Address) :
    keysUnique (upsertPeer (upsertPeer store r1) r2) ∧
    countKey (upsertPeer (upsertPeer store r1) r2) r2.Network r2.Address = 1 ∧
    ∃ row,
      findPeer (upsertPeer (upsertPeer store r1) r2) r2.Network r2.Address =
        some row ∧ mutableFieldsEq row r2 := by
  have hu2 : keysUnique (upsertPeer (upsertPeer store r1) r2) :=
    keysUnique_upsertPeer (keysUnique_upsertPeer h r1) r2
  obtain ⟨row, hfind, hmut⟩ := findPeer_upsertPeer (upsertPeer store r1) r2
  refine ⟨hu2, ?_, ⟨row, hfind, hmut⟩⟩
  have h1 := countKey_pos_of_findPeer hfind
  have h2 := hu2 r2.Network r2.Address
  omega

/-- First sighting of a peer at the shared witness key. -/
def contactRecordA : PeerAddress :=
  { zeroPeerAddress with
    Network := "FARCASTER_NETWORK_MAINNET"
    Address := "192.0.2.1"
    LastSeen := 111
    GossipPort := 2282
    HubVersion := "2023.1.1"
    Count := 100 }

/-- Second sighting of the same peer with different mutable fields. -/
def contactRecordB : PeerAddress :=
  { zeroPeerAddress with
    Network := "FARCASTER_NETWORK_MAINNET"
    Address := "192.0.2.1"
    LastSeen := 222
    GossipPort := 2382
    HubVersion := "2023.2.1"
    Count := 5 }

theorem upsert_same_key_replaces_without_duplicate_witness :
    keysUnique ([] : List PeerAddress) ∧
    contactRecordA.Network = contactRecordB.Network ∧
    contactRecordA.Address = contactRecordB.Address ∧
    (keysUnique (upsertPeer (upsertPeer [] contactRecordA) contactRecordB) ∧
      countKey (upsertPeer (upsertPeer [] contactRecordA) contactRecordB)
        contactRecordB.Network contactRecordB.Address = 1 ∧
      ∃ row,
        findPeer (upsertPeer (upsertPeer [] contactRecordA) contactRecordB)
          contactRecordB.Network contactRecordB.Address = some row ∧
          mutableFieldsEq row contactRecordB) :=
  ⟨fun _ _ => Nat.zero_le 1, rfl, rfl,
    upsert_same_key_replaces_without_duplicate [] contactRecordA contactRecordB
      (fun _ _ => Nat.zero_le 1) rfl rfl⟩

/-- C8: a cycle whose fetch suffers a transport error, a non-200 status or a
decode failure performs no store write at all; and inside a successful
cycle a contact whose own upsert fails contributes nothing while the
remaining contacts are still processed from the store state the earlier
contacts produced (no rollback, no abort). -/
theorem ingestion_failure_isolation
    (now : Int) (store : List PeerAddress) (statusCode : Nat)
    (body : Option PeerListResponse) (dbFailures : List Bool)
    (pre suf : List (PeerContact × Bool)) (c : PeerContact)
    (hstatus : statusCode ≠ 200) :
    getPeerListStep now store .transportError dbFailures = store ∧
    getPeerListStep now store (.response statusCode body) dbFailures = store ∧
    getPeerListStep now store (.response 200 none) dbFailures = store ∧
    ingestContacts now store (pre ++ (c, true) :: suf) =
      ingestContacts now (ingestContacts now store pre) suf := by
  refine ⟨rfl, ?_, rfl, ?_⟩
  · simp [getPeerListStep, hstatus]
  · induction pre generalizing store with
    | nil => rfl
    | cons p pre ih =>
      obtain ⟨contact, dbFailed⟩ := p
      simp only [List.cons_append, ingestContacts]
      exact ih _

/-- A well-formed contact used by the ingestion witnesses. -/
def sampleContact : PeerContact :=
  { GossipAddress := ⟨"192.0.2.1", 2, 2282, ""⟩
    RPCAddress := ⟨"192.0.2.1", 2, 2283, ""⟩
    Count := 42
    HubVersion := "2023.1.1"
    Network := "FARCASTER_NETWORK_MAINNET"
    AppVersion := "1.0"
    Timestamp := 1700000000000 }

theorem ingestion_failure_isolation_witness :
    (500 : Nat) ≠ 200 ∧
    (getPeerListStep 3 [] .transportError [] = [] ∧
      getPeerListStep 3 [] (.response 500 (some ⟨[sampleContact]⟩)) [] = [] ∧
      getPeerListStep 3 [] (.response 200 none) [] = [] ∧
      ingestContacts 3 []
          ([(sampleContact, false)] ++ (sampleContact, true) :: [(sampleContact, false)]) =
        ingestContacts 3 (ingestContacts 3 [] [(sampleContact, false)])
          [(sampleContact, false)]) :=
  ⟨by decide,
    ingestion_failure_isolation 3 [] 500 (some ⟨[sampleContact]⟩) []
      [(sampleContact, false)] [(sampleContact, false)] sampleContact
      (by decide)⟩

/-- A contact whose self-reported count is `2^63`, a valid `uint64` value. -/
def hugeCountContact : PeerContact :=
  { GossipAddress := ⟨"192.0.2.8", 2, 2282, ""⟩
    RPCAddress := ⟨"192.0.2.8", 2, 2283, ""⟩
    Count := 2 ^ 63
    HubVersion := "2023.1.1"
    Network := "FARCASTER_NETWORK_MAINNET"
    AppVersion := "1.0"
    Timestamp := 1700000000000 }

/-- C10 counterexample: the stored count is NOT the self-reported count
as-is for every contact — `int64(contact.Count)` wraps a `uint64` count of
`2^63` to `-2^63` before it is stored. -/
theorem count_not_stored_as_is_counterexample :
    (hugeCountContact.Count : Int) = 2 ^ 63 ∧
    (contactToPeerAddress 0 hugeCountContact).Count = -(2 ^ 63) ∧
    (contactToPeerAddress 0 hugeCountContact).Count ≠
      (hugeCountContact.Count : Int) := by
  decide

/-- C10 (amended): the stored `PeerTimestamp` is the contact's millisecond
timestamp converted to an absolute time, and the stored count is the
contact's self-reported count converted through `int64(uint64)` — identical
to the reported value whenever it is below `2^63` — with no validation
against the previously stored value: re-ingesting the same key with a
smaller count leaves the smaller count in the store. -/
theorem ingested_contact_numeric_fields
    (now1 now2 : Int) (c1 c2 : PeerContact) (store : List PeerAddress)
    (hkey : c1.Network = c2.Network ∧
      c1.GossipAddress.Address = c2.GossipAddress.Address)
    (hsmall : c2.Count < c1.Count) :
    (contactToPeerAddress now2 c2).PeerTimestamp = unixMilli c2.Timestamp ∧
    (contactToPeerAddress now2 c2).Count = int64OfUint64 c2.Count ∧
    (c2.Count < 2 ^ 63 → (contactToPeerAddress now2 c2).Count = (c2.Count : Int)) ∧
    ∃ row,
      findPeer
          (upsertPeer (upsertPeer store (contactToPeerAddress now1 c1))
            (contactToPeerAddress now2 c2))
          (contactToPeerAddress now2 c2).Network
          (contactToPeerAddress now2 c2).Address = some row ∧
        row.Count = int64OfUint64 c2.Count := by
  refine ⟨rfl, rfl, ?_, ?_⟩
  · intro h
    show int64OfUint64 c2.Count = (c2.Count : Int)
    have hlt : c2.Count < 2 ^ 64 := lt_trans h (by norm_num)
    unfold int64OfUint64
    rw [Nat.mod_eq_of_lt hlt, if_pos h]
  · obtain ⟨row, hfind, hmut⟩ :=
      findPeer_upsertPeer (upsertPeer store (contactToPeerAddress now1 c1))
        (contactToPeerAddress now2 c2)
    obtain ⟨_, _, _, _, _, _, _, _, _, _, _, _, hcount⟩ := hmut
    exact ⟨row, hfind, hcount⟩

/-- The first ingestion of the C10 witness peer, reporting count 100. -/
def contactCountHundred : PeerContact :=
  { GossipAddress := ⟨"192.0.2.9", 2, 2282, ""⟩
    RPCAddress := ⟨"192.0.2.9", 2, 2283, ""⟩
    Count := 100
    HubVersion := "2023.1.1"
    Network := "FARCASTER_NETWORK_MAINNET"
    AppVersion := "1.0"
    Timestamp := 1700000000000 }

/-- A later ingestion of the same peer, reporting the smaller count 5. -/
def contactCountFive : PeerContact :=
  { GossipAddress := ⟨"192.0.2.9", 2, 2282, ""⟩
    RPCAddress := ⟨"192.0.2.9", 2, 2283, ""⟩
    Count := 5
    HubVersion := "2023.1.2"
    Network := "FARCASTER_NETWORK_MAINNET"
    AppVersion := "1.0"
    Timestamp := 1700000005000 }

theorem ingested_contact_numeric_fields_witness :
    (contactCountHundred.Network = contactCountFive.Network ∧
      contactCountHundred.GossipAddress.Address =
        contactCountFive.GossipAddress.Address) ∧
    contactCountFive.Count < contactCountHundred.Count ∧
    ((contactToPeerAddress 9 contactCountFive).PeerTimestamp =
        unixMilli contactCountFive.Timestamp ∧
      (contactToPeerAddress 9 contactCountFive).Count =
        int64OfUint64 contactCountFive.Count ∧
      (contactCountFive.Count < 2 ^ 63 →
        (contactToPeerAddress 9 contactCountFive).Count =
          (contactCountFive.Count : Int)) ∧
      ∃ row,
        findPeer
            (upsertPeer (upsertPeer [] (contactToPeerAddress 8 contactCountHundred))
              (contactToPeerAddress 9 contactCountFive))
            (contactToPeerAddress 9 contactCountFive).Network
            (contactToPeerAddress 9 contactCountFive).Address = some row ∧
          row.Count = int64OfUint64 contactCountFive.Count) :=
  ⟨⟨rfl, rfl⟩, by decide,
    ingested_contact_numeric_fields 8 9 contactCountHundred contactCountFive []
      ⟨rfl, rfl⟩ (by decide)⟩
